import Mathlib

/-!
Verification of the batch scraping engine of py-spider-for-wechat.

The development shallowly embeds the two scraping modules of the repository:

* `src/utils/batch_scraper.py` — `BatchScraperDatabase` (SQLite persistence
  with `INSERT OR REPLACE` upsert), `BatchScraperThread` (config validation,
  sequential account processing, per-account pagination loop around
  `getAllUrl`, cooperative cancellation, CSV export), and
* `src/note/other/WeChat.py` — `WeChatScraper` (`_make_request` retry,
  `scrape_articles_by_account` pagination with date-window filtering and
  auth-failure `SystemExit`, the `run` account loop).

Network endpoints, together with transport failures, are modelled as oracles
(functions from call/attempt indices to outcomes); timestamps are seconds
since the Unix epoch as natural numbers, and calendar dates are day numbers
(`ts / 86400`), which is order-isomorphic to Python's `date` comparison of
`datetime.fromtimestamp(ts).date()` under a fixed (UTC) zone.  The
cooperative `is_cancelled` flag flips from false to true at most once, so a
schedule is characterised by the number of flag reads that happen before the
flip.
-/

namespace WeSpider

/-! ## Timestamps and dates -/

/-- Day number of a timestamp: models `datetime.fromtimestamp(ts).date()`
(fixed UTC zone).  Two timestamps compare on dates exactly as their day
numbers compare. -/
def dateOf (ts : Nat) : Nat := ts / 86400

/-- Two-digit zero padding, as produced by `strftime` fields `%m %d %H %M %S`. -/
def pad2 (n : Nat) : String := if n < 10 then ("0") ++ toString n else toString n

/-- Gregorian calendar date of a day number (days since 1970-01-01),
the standard civil-from-days conversion used by Python's `datetime` for
non-negative timestamps.  Returns (year, month, day). -/
def civilFromDays (z0 : Nat) : Nat × Nat × Nat :=
  let z := z0 + 719468
  let era := z / 146097
  let doe := z % 146097
  let yoe := (doe - doe / 1460 + doe / 36524 - doe / 146096) / 365
  let y := yoe + era * 400
  let doy := doe - (365 * yoe + yoe / 4 - yoe / 100)
  let mp := (5 * doy + 2) / 153
  let d := doy - (153 * mp + 2) / 5 + 1
  let m := if mp < 10 then mp + 3 else mp - 9
  (if m ≤ 2 then y + 1 else y, m, d)

/-- Models `BatchScraperThread._format_timestamp` (batch_scraper.py lines
434-440): `datetime.fromtimestamp` followed by `strftime` with the
year-month-day hour:minute:second format, under the fixed (UTC) zone of
this embedding; for a natural number timestamp the `int` conversion
cannot fail. -/
def formatTimestamp (ts : Nat) : String :=
  let ymd := civilFromDays (ts / 86400)
  let secs := ts % 86400
  toString ymd.1 ++ "-" ++ pad2 ymd.2.1 ++ "-" ++ pad2 ymd.2.2 ++ " " ++
    pad2 (secs / 3600) ++ ":" ++ pad2 (secs % 3600 / 60) ++ ":" ++ pad2 (secs % 60)

/-- Models `WeChatScraper.format_timestamp` (WeChat.py lines 821-829): a
zero (falsy) timestamp yields the empty string, otherwise the same
`strftime` format. -/
def wcFormatTimestamp (ts : Nat) : String :=
  if ts = 0 then ("") else formatTimestamp ts

/-- Models `WeChatScraper.is_in_date_range` (WeChat.py lines 831-840): a
zero (falsy) timestamp is out of range, otherwise the article date must lie
between the inclusive bounds. -/
def isInDateRange (ts s e : Nat) : Bool :=
  if ts ≠ 0 then decide (s ≤ dateOf ts) && decide (dateOf ts ≤ e) else false

/-! ## Feed items and article records -/

/-- One entry of the vendor `app_msg_list`: the fields the scrapers read
(`title`, `link`, `digest`, `create_time`/`update_time`).  `getAllUrl`
ignores the digest. -/
structure FeedItem where
  title : String
  link : String
  digest : String
  ts : Nat
deriving DecidableEq

/-- The article dictionary both scrapers build and persist: keys `name`,
`title`, `link`, `digest`, `publish_time`, `publish_timestamp`, `content`. -/
structure ArticleInput where
  name : String
  title : String
  link : String
  digest : String
  publish_time : String
  publish_timestamp : Nat
  content : String
deriving DecidableEq

/-- The `article_info` dictionary built in
`BatchScraperThread._scrape_single_account` (batch_scraper.py lines
370-378): digest and content are left empty, `publish_time` is the
formatted timestamp and `publish_timestamp` the raw `update_time`. -/
def mkArticleInfoBS (accountName : String) (it : FeedItem) : ArticleInput :=
  { name := accountName
    title := it.title
    link := it.link
    digest := ""
    publish_time := formatTimestamp it.ts
    publish_timestamp := it.ts
    content := "" }

/-- The `article_info` dictionary built in
`WeChatScraper.extract_article_info` (WeChat.py lines 842-861), without the
optional content-extraction step (which touches neither time field): title
and digest are stripped, `publish_time` formatted from `create_time`. -/
def mkArticleInfoWC (officialAccount : String) (it : FeedItem) : ArticleInput :=
  { name := officialAccount
    title := it.title.trim
    link := it.link
    digest := it.digest.trim
    publish_time := wcFormatTimestamp it.ts
    publish_timestamp := it.ts
    content := "" }

/-! ## The SQLite article store -/

/-- One row of the `batch_articles` table (batch_scraper.py lines 80-94):
`id INTEGER PRIMARY KEY AUTOINCREMENT`, the article columns, `batch_id`,
and `created_at INTEGER DEFAULT (strftime('%s', 'now'))`, with
`link TEXT UNIQUE NOT NULL`. -/
structure ArticleRow where
  rowId : Nat
  account_name : String
  title : String
  link : String
  digest : String
  publish_time : String
  publish_timestamp : Nat
  content : String
  batch_id : String
  created_at : Nat
deriving DecidableEq

/-- The `batch_articles` table state: its rows in insertion order and the
next autoincrement id. -/
structure Store where
  rows : List ArticleRow
  nextId : Nat
deriving DecidableEq

def emptyStore : Store := { rows := [], nextId := 1 }

/-- Models `BatchScraperDatabase.save_article` (batch_scraper.py lines
134-160): `INSERT OR REPLACE INTO batch_articles (account_name, title,
link, digest, content, publish_time, publish_timestamp, batch_id) VALUES
(...)`.  SQLite's REPLACE conflict resolution deletes any row conflicting
on the `UNIQUE` `link` column and then inserts a fresh row; the omitted
`id` and `created_at` columns take their defaults — a new autoincrement id
and the current time `strftime('%s', 'now')`, passed here as `now`. -/
def saveArticle (st : Store) (a : ArticleInput) (batchId : String) (now : Nat) : Store :=
  { rows := st.rows.filter (fun r => r.link ≠ a.link) ++
      [{ rowId := st.nextId
         account_name := a.name
         title := a.title
         link := a.link
         digest := a.digest
         publish_time := a.publish_time
         publish_timestamp := a.publish_timestamp
         content := a.content
         batch_id := batchId
         created_at := now }]
    nextId := st.nextId + 1 }

/-- Links present in a store. -/
def Store.links (st : Store) : List String := st.rows.map (fun r => r.link)

/-! ## Cooperative cancellation -/

/-- Models a read of the `is_cancelled` flag: `cancel()` flips the flag
from false to true exactly once and nothing clears it, so a schedule is
characterised by how many flag reads return false before the flip.
`flip = none` is a run that is never cancelled; `flip = some k` returns
true from the `k`-th read (0-based) on. -/
def cancelled (flip : Option Nat) (reads : Nat) : Bool :=
  match flip with
  | none => false
  | some k => decide (k ≤ reads)

/-! ## batch_scraper.py — the per-account pagination loop -/

/-- The chained comparison `start_date <= article_date <= end_date` of
batch_scraper.py line 369, as a Bool predicate on feed items. -/
def inWindowBS (s e : Nat) (y : FeedItem) : Bool :=
  decide (s ≤ dateOf y.ts ∧ dateOf y.ts ≤ e)

/-- Result of the inner item loop over one fetched page in
`_scrape_single_account`: the `article_info` records appended to
`articles_in_range`, the `found_in_range` flag, and the value of the Python
variable `article_date` after the loop — the date of the last item
examined (the item that triggered the too-old `break`, or the final item
of the page; `0` stands for the empty page, a case the caller has already
excluded by the `if not titles` test). -/
structure PageScan where
  emitted : List ArticleInput
  found : Bool
  lastDate : Nat
deriving DecidableEq

/-- Models the item loop of `_scrape_single_account` (batch_scraper.py
lines 361-385): the first item dated strictly before `s` breaks out of the
page; an item inside `[s, e]` is collected and sets `found_in_range`;
newer items are skipped. -/
def scanItemsBS (accountName : String) (s e : Nat) : List FeedItem → PageScan
  | [] => { emitted := [], found := false, lastDate := 0 }
  | x :: xs =>
    let d := dateOf x.ts
    if d < s then { emitted := [], found := false, lastDate := d }
    else if s ≤ d ∧ d ≤ e then
      let r := scanItemsBS accountName s e xs
      { emitted := mkArticleInfoBS accountName x :: r.emitted
        found := true
        lastDate := if xs.isEmpty then d else r.lastDate }
    else
      let r := scanItemsBS accountName s e xs
      { emitted := r.emitted
        found := r.found
        lastDate := if xs.isEmpty then d else r.lastDate }

/-- Models the page loop of `_scrape_single_account` (batch_scraper.py
lines 343-399).  `fetch` is the `getAllUrl` call: first argument the
per-account call index (so that repeated calls after a caught exception
can differ), second the `page_start` offset; `none` models a raised
`requests`/parse exception, which the loop catches, logs and `continue`s
past (leaving `page_start` unchanged but consuming one of the `max_pages`
iterations).  `fuel` is the number of remaining `range(max_pages)`
iterations, `calls` the `getAllUrl` calls made so far, `reads` the global
count of `is_cancelled` reads.  Returns the collected articles, the number
of `getAllUrl` calls made by this loop, and the updated read count. -/
def bsPages (flip : Option Nat) (fetch : Nat → Nat → Option (List FeedItem))
    (accountName : String) (s e : Nat) :
    Nat → Nat → Nat → Nat → List ArticleInput × Nat × Nat
  | 0, _, _, reads => ([], 0, reads)
  | fuel + 1, pageStart, calls, reads =>
    if cancelled flip reads then ([], 0, reads + 1)
    else
      match fetch calls pageStart with
      | none =>
        let r := bsPages flip fetch accountName s e fuel pageStart (calls + 1) (reads + 1)
        (r.1, r.2.1 + 1, r.2.2)
      | some items =>
        if items.isEmpty then ([], 1, reads + 1)
        else
          let ps := scanItemsBS accountName s e items
          if ¬ ps.found ∧ ps.lastDate < s then (ps.emitted, 1, reads + 1)
          else
            let r := bsPages flip fetch accountName s e fuel (pageStart + 5) (calls + 1) (reads + 1)
            (ps.emitted ++ r.1, r.2.1 + 1, r.2.2)

/-- Outcome of `_scrape_single_account`: either a propagated exception
(`raised`) or the collected in-window articles. -/
inductive BScrape
  | raised
  | done (arts : List ArticleInput)
deriving DecidableEq

/-- Models `_scrape_single_account` (batch_scraper.py lines 326-401).
`resolve` is the `get_fakid` search call: `none` a raised request
exception, otherwise the parsed result list, whose emptiness raises
`未找到公众号`; its first entry supplies the fakeid consumed by the page
fetches.  Returns the outcome, the number of network requests made (one
search plus one per `getAllUrl` call) and the updated `is_cancelled` read
count. -/
def scrapeSingleBS (flip : Option Nat) (resolve : Option (List String))
    (fetch : Nat → Nat → Option (List FeedItem)) (accountName : String)
    (s e maxPages reads : Nat) : BScrape × Nat × Nat :=
  match resolve with
  | none => (BScrape.raised, 1, reads)
  | some [] => (BScrape.raised, 1, reads)
  | some (_ :: _) =>
    let r := bsPages flip fetch accountName s e maxPages 0 0 reads
    (BScrape.done r.1, r.2.1 + 1, r.2.2)

/-! ## batch_scraper.py — the orchestrator -/

/-- The Qt signals `BatchScraperThread` emits (batch_scraper.py lines
182-186), without their free-text message payloads: `account_status`,
`progress_updated`, `error_occurred` and `batch_completed`. -/
inductive BEvent
  | status (name st : String)
  | progress (done total : Nat)
  | errored (name : String)
  | completedBatch (total : Nat)
deriving DecidableEq

/-- Result of the sequential account loop: aggregated articles, emitted
signals in order, network requests made, and the `is_cancelled` read
count after the loop. -/
structure SeqRes where
  arts : List ArticleInput
  events : List BEvent
  net : Nat
  reads : Nat
deriving DecidableEq

/-- Models `_process_accounts_sequential` (batch_scraper.py lines
260-288): per account one cancellation check (a true read breaks the
loop), a `processing` status and a progress signal, the scrape, then a
`completed` status — or, when the scrape raised, an `error` status and an
`error_occurred` signal before continuing with the next account.
`resolve` and `fetch` are indexed by account name; `i` is the loop index
and `total` the account count. -/
def processSeqBS (flip : Option Nat) (resolve : String → Option (List String))
    (fetch : String → Nat → Nat → Option (List FeedItem))
    (s e maxPages total : Nat) :
    List String → Nat → Nat → SeqRes
  | [], _, reads => { arts := [], events := [], net := 0, reads := reads }
  | name :: rest, i, reads =>
    if cancelled flip reads then
      { arts := [], events := [], net := 0, reads := reads + 1 }
    else
      let sr := scrapeSingleBS flip (resolve name) (fetch name) name s e maxPages (reads + 1)
      match sr.1 with
      | BScrape.raised =>
        let r := processSeqBS flip resolve fetch s e maxPages total rest (i + 1) sr.2.2
        { arts := r.arts
          events := BEvent.status name ("processing") :: BEvent.progress i total ::
            BEvent.status name ("error") :: BEvent.errored name :: r.events
          net := sr.2.1 + r.net
          reads := r.reads }
      | BScrape.done as =>
        let r := processSeqBS flip resolve fetch s e maxPages total rest (i + 1) sr.2.2
        { arts := as ++ r.arts
          events := BEvent.status name ("processing") :: BEvent.progress i total ::
            BEvent.status name ("completed") :: r.events
          net := sr.2.1 + r.net
          reads := r.reads }

/-- The configuration dictionary keys `_run_batch_scraper` reads, with the
two dates already passed through `_parse_date` (`none` = format error). -/
structure BatchConfig where
  accounts : List String
  startDate : Option Nat
  endDate : Option Nat
  batchId : String
  useDatabase : Bool
  outputFile : Option String
  maxPages : Nat
deriving DecidableEq

/-- The `batch_info` row for this run plus the `batch_articles` table:
`batchStatus = none` while `create_batch` has not run, then `some
"running"` and, only via `complete_batch`, `some ("completed")`. -/
structure BatchDb where
  batchStatus : Option String
  totalArticles : Nat
  store : Store
deriving DecidableEq

/-- Observable outcome of `_run_batch_scraper`. -/
structure BatchRes where
  events : List BEvent
  net : Nat
  db : Option BatchDb
  fileWritten : Bool
  arts : List ArticleInput
deriving DecidableEq

/-- Models `_save_results` (batch_scraper.py lines 403-425): an empty
article list returns before touching the output file; otherwise the CSV is
written when an `output_file` is configured. -/
def saveResultsBS (arts : List ArticleInput) (outputFile : Option String) : Bool :=
  if arts.isEmpty then false else outputFile.isSome

/-- Models `_run_batch_scraper` (batch_scraper.py lines 211-259) on the
sequential path: date parsing and ordering are validated before any
network request (a failure emits a single system `error_occurred` signal
and returns); `create_batch` marks the batch running; after the account
loop a final `is_cancelled` read decides whether `_save_results`,
`complete_batch` and the `batch_completed` signal run.  Articles are
persisted per emission with the run's `batch_id`; `now` supplies the
`strftime`-now of the saves.  The database (when enabled) is initialised
by `__init__` before `run`, hence exists even on the validation-error
paths, with no `batch_info` row yet. -/
def runBatchBS (flip : Option Nat) (resolve : String → Option (List String))
    (fetch : String → Nat → Nat → Option (List FeedItem)) (cfg : BatchConfig)
    (now : Nat) : BatchRes :=
  let db0 : Option BatchDb :=
    if cfg.useDatabase then some { batchStatus := none, totalArticles := 0, store := emptyStore }
    else none
  match cfg.startDate, cfg.endDate with
  | none, _ =>
    { events := [BEvent.errored ("系统")], net := 0, db := db0, fileWritten := false, arts := [] }
  | some _, none =>
    { events := [BEvent.errored ("系统")], net := 0, db := db0, fileWritten := false, arts := [] }
  | some s, some e =>
    if e < s then
      { events := [BEvent.errored ("系统")], net := 0, db := db0, fileWritten := false, arts := [] }
    else
      let db1 := db0.map (fun d => { d with batchStatus := some ("running") })
      let r := processSeqBS flip resolve fetch s e cfg.maxPages
        cfg.accounts.length cfg.accounts 0 0
      let db2 := db1.map (fun d =>
        { d with store := r.arts.foldl (fun st a => saveArticle st a cfg.batchId now) d.store })
      if cancelled flip r.reads then
        { events := r.events, net := r.net, db := db2, fileWritten := false, arts := r.arts }
      else
        { events := r.events ++ [BEvent.completedBatch r.arts.length]
          net := r.net
          db := db2.map (fun d =>
            { d with batchStatus := some ("completed"), totalArticles := r.arts.length })
          fileWritten := saveResultsBS r.arts cfg.outputFile
          arts := r.arts }

/-- The account-loop call `_run_batch_scraper` makes once validation has
passed: `_process_accounts_sequential(accounts, start_date, end_date,
batch_id, total_accounts)` starting at index 0 with no cancellation read
yet. -/
def seqPart (flip : Option Nat) (resolve : String → Option (List String))
    (fetch : String → Nat → Nat → Option (List FeedItem)) (cfg : BatchConfig)
    (s e : Nat) : SeqRes :=
  processSeqBS flip resolve fetch s e cfg.maxPages cfg.accounts.length cfg.accounts 0 0

/-! ## WeChat.py — the retrying request helper -/

/-- Outcome of one HTTP attempt inside `_make_request`: a raised
`requests.exceptions.RequestException` (timeout, non-2xx via
`raise_for_status`), or a parsed response body. -/
inductive Attempt (α : Type)
  | fail
  | ok (resp : α)
deriving DecidableEq

/-- Recursion for `_make_request` (WeChat.py lines 764-778): `att i` is
the outcome of the `i`-th attempt, `fuel` the number of retries still
allowed (`RETRY_COUNT - i`, so the `i < RETRY_COUNT` test of the source is
the `fuel > 0` test here).  Returns the first successful response, or
`none` with all attempts spent, together with the number of attempts
made. -/
def makeRequestGo {α : Type} (att : Nat → Attempt α) : Nat → Nat → Option α × Nat
  | i, 0 =>
    match att i with
    | Attempt.ok r => (some r, 1)
    | Attempt.fail => (none, 1)
  | i, fuel + 1 =>
    match att i with
    | Attempt.ok r => (some r, 1)
    | Attempt.fail =>
      let r := makeRequestGo att (i + 1) fuel
      (r.1, r.2 + 1)

/-- Models `WeChatScraper._make_request` (WeChat.py lines 764-778): `for i
in range(RETRY_COUNT + 1)` — an initial attempt plus up to `retryCount`
retries, each retry preceded by the fixed `RETRY_DELAY_SECONDS` sleep. -/
def makeRequest {α : Type} (att : Nat → Attempt α) (retryCount : Nat) : Option α × Nat :=
  makeRequestGo att 0 retryCount

/-- Parsed body of the `searchbiz` response: the envelope code
`base_resp.ret` (0 on success) and the fakeids of the `list` entries. -/
structure SearchResp where
  ret : Int
  list : List String
deriving DecidableEq

/-- Parsed body of the `appmsg` listing response: the envelope code
`base_resp.ret` and the `app_msg_list` entries. -/
structure ListResp where
  ret : Int
  items : List FeedItem
deriving DecidableEq

/-- The `ACCOUNT_STATUS` lines `send_status_update` prints (WeChat.py
lines 751-762), reduced to the account name and status strings; the
articles-found and page counters and the optional error text are
omitted. -/
inductive WEvent
  | status (name st : String)
deriving DecidableEq

/-! ## WeChat.py — the per-account scrape -/

/-- Models the item loop of `scrape_articles_by_account` (WeChat.py lines
947-963): the first item dated strictly before `start_date` clears
`has_more` and breaks; `is_in_date_range` items are collected via
`extract_article_info`.  Returns the collected articles and the surviving
`has_more` flag. -/
def scanItemsWC (officialAccount : String) (s e : Nat) :
    List FeedItem → List ArticleInput × Bool
  | [] => ([], true)
  | x :: xs =>
    if dateOf x.ts < s then ([], false)
    else
      let r := scanItemsWC officialAccount s e xs
      if isInDateRange x.ts s e then (mkArticleInfoWC officialAccount x :: r.1, r.2)
      else r

/-- Result of the `while has_more` page loop: collected articles, status
updates in order, HTTP attempts made, and whether a `SystemExit` is
propagating (auth codes 200013 / -6 from the listing envelope). -/
structure WcPagesRes where
  arts : List ArticleInput
  events : List WEvent
  attempts : Nat
  sysExit : Bool
deriving DecidableEq

/-- Models the `while has_more` loop of `scrape_articles_by_account`
(WeChat.py lines 915-985): per page a `processing` status update, a
retried listing request (`listO beginOff attempt`), then envelope
handling — a transport failure or a non-auth error code emits an `error`
status and breaks, the auth codes 200013 and -6 raise `SystemExit` —
and the item scan; a surviving `has_more` with a full page of 5 advances
`begin` by 5.  `fuel` bounds the unbounded source loop; the run of every
claim below exits by itself before exhausting it. -/
def wcPageLoop (listO : Nat → Nat → Attempt ListResp) (name : String)
    (rc s e : Nat) : Nat → Nat → WcPagesRes
  | 0, _ => { arts := [], events := [], attempts := 0, sysExit := false }
  | fuel + 1, beginOff =>
    let ev := WEvent.status name ("processing")
    let mr := makeRequest (listO beginOff) rc
    match mr.1 with
    | none =>
      { arts := [], events := [ev, WEvent.status name ("error")],
        attempts := mr.2, sysExit := false }
    | some resp =>
      if resp.ret ≠ 0 then
        if resp.ret = 200013 ∨ resp.ret = -6 then
          { arts := [], events := [ev], attempts := mr.2, sysExit := true }
        else
          { arts := [], events := [ev, WEvent.status name ("error")],
            attempts := mr.2, sysExit := false }
      else if resp.items.isEmpty then
        { arts := [], events := [ev], attempts := mr.2, sysExit := false }
      else
        let sc := scanItemsWC name s e resp.items
        let hm := sc.2 && decide (¬ resp.items.length < 5)
        if hm then
          let r := wcPageLoop listO name rc s e fuel (beginOff + 5)
          { arts := sc.1 ++ r.arts, events := ev :: r.events,
            attempts := mr.2 + r.attempts, sysExit := r.sysExit }
        else
          { arts := sc.1, events := [ev], attempts := mr.2, sysExit := false }

/-- Observable outcome of `scrape_articles_by_account`. -/
structure WcScrapeRes where
  arts : List ArticleInput
  events : List WEvent
  attempts : Nat
  sysExit : Bool
deriving DecidableEq

/-- Models `scrape_articles_by_account` (WeChat.py lines 863-989): a
`processing` status, the retried `searchbiz` request (any nonzero
envelope code, an empty result list, a transport failure each emit an
`error` status and fail only this account), then the page loop; a normal
exit appends the final `completed` status of line 988, while a
propagating `SystemExit` skips it and discards the local article list. -/
def wcScrape (searchO : Nat → Attempt SearchResp) (listO : Nat → Nat → Attempt ListResp)
    (name : String) (rc s e fuel : Nat) : WcScrapeRes :=
  let ev0 := WEvent.status name ("processing")
  let mr := makeRequest searchO rc
  match mr.1 with
  | none =>
    { arts := [], events := [ev0, WEvent.status name ("error")],
      attempts := mr.2, sysExit := false }
  | some resp =>
    if resp.ret ≠ 0 then
      { arts := [], events := [ev0, WEvent.status name ("error")],
        attempts := mr.2, sysExit := false }
    else
      match resp.list with
      | [] =>
        { arts := [], events := [ev0, WEvent.status name ("error")],
          attempts := mr.2, sysExit := false }
      | _ :: _ =>
        let pl := wcPageLoop listO name rc s e fuel 0
        if pl.sysExit then
          { arts := [], events := ev0 :: pl.events,
            attempts := mr.2 + pl.attempts, sysExit := true }
        else
          { arts := pl.arts,
            events := (ev0 :: pl.events) ++ [WEvent.status name ("completed")],
            attempts := mr.2 + pl.attempts, sysExit := false }

/-- Observable outcome of the account loop of `WeChatScraper.run`. -/
structure WcRunRes where
  results : List ArticleInput
  events : List WEvent
  attempts : Nat
  aborted : Bool
deriving DecidableEq

/-- Models the account loop of `WeChatScraper.run` (WeChat.py lines
1026-1046): a `pending` status per account before its scrape; a
`SystemExit` from a scrape is caught at line 1043 and aborts the loop, so
no later account is touched, while earlier accounts' results are retained
into the `finally` block. -/
def wcRunAccounts (searchO : String → Nat → Attempt SearchResp)
    (listO : String → Nat → Nat → Attempt ListResp) (rc s e fuel : Nat) :
    List String → WcRunRes
  | [] => { results := [], events := [], attempts := 0, aborted := false }
  | name :: rest =>
    let sr := wcScrape (searchO name) (listO name) name rc s e fuel
    let evs := WEvent.status name ("pending") :: sr.events
    if sr.sysExit then
      { results := [], events := evs, attempts := sr.attempts, aborted := true }
    else
      let r := wcRunAccounts searchO listO rc s e fuel rest
      { results := sr.arts ++ r.results, events := evs ++ r.events,
        attempts := sr.attempts + r.attempts, aborted := r.aborted }

/-! ## Configuration constants of batch_scraper.py -/

/-- `DEFAULT_RETRY_COUNT` (batch_scraper.py line 59).  The module defines
it but no code path of the module ever reads it. -/
def DEFAULT_RETRY_COUNT : Nat := 3

/-- `RETRY_COUNT` (WeChat.py line 85), consumed by `_make_request`. -/
def RETRY_COUNT : Nat := 3

/-! ## Concrete fixtures for witnesses and counterexamples

All concrete runs below use the date window of day numbers `[10, 20]`. -/

/-- A feed item published on day 15, inside the window `[10, 20]`. -/
def itemDay15 : FeedItem :=
  { title := "in-window", link := "http://w/15", digest := "", ts := 1296000 }

/-- A feed item published on day 16, inside the window `[10, 20]`. -/
def itemDay16 : FeedItem :=
  { title := "in-window-2", link := "http://w/16", digest := "", ts := 1382400 }

/-- A feed item published on day 17, inside the window `[10, 20]`. -/
def itemDay17 : FeedItem :=
  { title := "in-window-3", link := "http://w/17", digest := "", ts := 1468800 }

/-- A feed item published on day 5, strictly before the window start 10. -/
def itemDay5 : FeedItem :=
  { title := "too-old", link := "http://w/5", digest := "", ts := 432000 }

/-- A feed item published on day 25, strictly after the window end 20. -/
def itemDay25 : FeedItem :=
  { title := "too-new", link := "http://w/25", digest := "", ts := 2160000 }

/-- Feed for the C1 counterexample: the first page holds an in-window item
followed by a too-old item, later offsets hold only too-old items. -/
def c1fetch : Nat → Nat → Option (List FeedItem) :=
  fun _ pageStart => if pageStart = 0 then some [itemDay15, itemDay5] else some [itemDay5]

/-- Feed for the C2 counterexample: the first page holds three in-window
items (fewer than the page size 5), later offsets are empty. -/
def c2fetch : Nat → Nat → Option (List FeedItem) :=
  fun _ pageStart =>
    if pageStart = 0 then some [itemDay17, itemDay16, itemDay15] else some []

/-- Feed for the C5 counterexample: the `getAllUrl` call raises on its
first five calls (all at offset 0), then returns one in-window item, then
an empty page. -/
def c5fetch : Nat → Nat → Option (List FeedItem) :=
  fun call _ =>
    if call < 5 then none else if call = 5 then some [itemDay15] else some []

/-- Search oracle resolving every account on the first attempt. -/
def c6search : String → Nat → Attempt SearchResp :=
  fun _ _ => Attempt.ok { ret := 0, list := ["fakeid"] }

/-- Listing oracle for the C6 counterexample: account A's listing comes
back with the auth-failure envelope code 200013, every other account's
listing is an ordinary empty page. -/
def c6list : String → Nat → Nat → Attempt ListResp :=
  fun name _ _ =>
    if name = "A" then Attempt.ok { ret := 200013, items := [] }
    else Attempt.ok { ret := 0, items := [] }

/-- Resolver used by the batch-scraper fixtures: every account yields one
search result. -/
def cResolve : String → Option (List String) := fun _ => some ["fakeid"]

/-- Per-account feed for the C7 counterexample: one in-window item on the
first page, then an empty page. -/
def c7fetch : String → Nat → Nat → Option (List FeedItem) :=
  fun _ _ pageStart => if pageStart = 0 then some [itemDay15] else some []

/-- Configuration for the C7 counterexample: two accounts, the valid
window `[10, 20]`, database enabled. -/
def c7cfg : BatchConfig :=
  { accounts := ["A", "B"], startDate := some 10, endDate := some 20,
    batchId := "batch_1", useDatabase := true, outputFile := some ("out.csv"),
    maxPages := 5 }

/-- Configuration for the C3 counterexample: an empty account list with an
otherwise valid window. -/
def c3cfg : BatchConfig :=
  { accounts := [], startDate := some 10, endDate := some 20,
    batchId := "batch_2", useDatabase := true, outputFile := some ("out.csv"),
    maxPages := 5 }

/-- Per-account feed that always returns an empty first page. -/
def cEmptyFetch : String → Nat → Nat → Option (List FeedItem) :=
  fun _ _ _ => some []

/-- Configuration for the C10 witness: one account, valid window. -/
def c10cfg : BatchConfig :=
  { accounts := ["A"], startDate := some 10, endDate := some 20,
    batchId := "batch_3", useDatabase := true, outputFile := some ("out.csv"),
    maxPages := 5 }

/-- Configuration with an inverted window (start day 20, end day 10). -/
def cBadCfg : BatchConfig :=
  { accounts := ["A"], startDate := some 20, endDate := some 10,
    batchId := "batch_4", useDatabase := true, outputFile := some ("out.csv"),
    maxPages := 5 }

/-- Listing oracle whose every page is an in-window item followed by a
too-old item. -/
def c1wcList : Nat → Nat → Attempt ListResp :=
  fun _ _ => Attempt.ok { ret := 0, items := [itemDay15, itemDay5] }

/-- Listing oracle whose every page is a single in-window item. -/
def c2wcList : Nat → Nat → Attempt ListResp :=
  fun _ _ => Attempt.ok { ret := 0, items := [itemDay15] }

/-- Listing oracle whose every attempt raises a transport failure. -/
def cFailList : Nat → Nat → Attempt ListResp := fun _ _ => Attempt.fail

/-- Feed whose every page is a single too-old item. -/
def cOldFetch : Nat → Nat → Option (List FeedItem) := fun _ _ => some [itemDay5]

/-- Feed whose every page is empty. -/
def cEmptyPage : Nat → Nat → Option (List FeedItem) := fun _ _ => some []

/-- Resolver whose search request always raises. -/
def cBadResolve : String → Option (List String) := fun _ => none

/-- Attempt oracle failing twice, then succeeding with the value 7. -/
def c5att : Nat → Attempt Nat := fun i => if i < 2 then Attempt.fail else Attempt.ok 7

/-- A concrete article input for the store theorems. -/
def artA : ArticleInput :=
  { name := "acct", title := "t", link := "http://example/1", digest := "d",
    publish_time := "2024-01-01 08:00:00", publish_timestamp := 1704067200,
    content := "c" }

/-- The row `saveArticle emptyStore artA ("b1") 100` inserts. -/
def artARow : ArticleRow :=
  { rowId := 1, account_name := "acct", title := "t", link := "http://example/1",
    digest := "d", publish_time := "2024-01-01 08:00:00",
    publish_timestamp := 1704067200, content := "c", batch_id := "b1",
    created_at := 100 }

/-- The row a second `saveArticle` of `artA` (batch ("b2"), time 200) leaves
in place of `artARow`. -/
def artARow2 : ArticleRow :=
  { rowId := 2, account_name := "acct", title := "t", link := "http://example/1",
    digest := "d", publish_time := "2024-01-01 08:00:00",
    publish_timestamp := 1704067200, content := "c", batch_id := "b2",
    created_at := 200 }

/-! ## Helper lemmas -/

theorem cancelled_none (reads : Nat) : cancelled none reads = false := rfl

/-- Rows surviving the REPLACE deletion never carry the saved link. -/
theorem filter_ne_filter_eq (l : List ArticleRow) (s : String) :
    (l.filter (fun r => r.link ≠ s)).filter (fun r => r.link = s) = [] := by
  induction l with
  | nil => rfl
  | cons x xs ih =>
    by_cases h : x.link = s <;> simp [List.filter_cons, h, ih]

/-- Splitting a row list by link equality preserves its length. -/
theorem filter_link_length (l : List ArticleRow) (s : String) :
    (l.filter (fun r => r.link ≠ s)).length + (l.filter (fun r => r.link = s)).length
      = l.length := by
  induction l with
  | nil => rfl
  | cons x xs ih =>
    by_cases h : x.link = s <;> simp [List.filter_cons, h, decide_not] at ih ⊢ <;> omega

/-- A link present in a store is still present after any further save. -/
theorem link_mem_save (st : Store) (a : ArticleInput) (b : String) (now : Nat)
    (l : String) (hl : l ∈ st.links) : l ∈ (saveArticle st a b now).links := by
  by_cases hla : l = a.link
  · simp [Store.links, saveArticle, hla]
  · rcases List.mem_map.mp hl with ⟨r, hr, hrl⟩
    refine List.mem_map.mpr ⟨r, ?_, hrl⟩
    simp only [saveArticle, List.mem_append]
    exact Or.inl (List.mem_filter.mpr ⟨hr, by simp [hrl, hla]⟩)

/-- A link present in a store survives a whole sequence of saves. -/
theorem link_mem_foldl (b : String) (now : Nat) :
    ∀ (arts : List ArticleInput) (st : Store) (l : String), l ∈ st.links →
      l ∈ (arts.foldl (fun acc x => saveArticle acc x b now) st).links
  | [], _, _, hl => hl
  | a :: arts, st, l, hl =>
    link_mem_foldl b now arts (saveArticle st a b now) l (link_mem_save st a b now l hl)

/-- Every article saved by a sequence of saves has a row under its link in
the resulting store. -/
theorem saved_link_mem_foldl (b : String) (now : Nat) :
    ∀ (arts : List ArticleInput) (st : Store) (a : ArticleInput), a ∈ arts →
      a.link ∈ (arts.foldl (fun acc x => saveArticle acc x b now) st).links := by
  intro arts
  induction arts with
  | nil => intro st a ha; cases ha
  | cons x xs ih =>
    intro st a ha
    rcases List.mem_cons.mp ha with h | h
    · subst h
      exact link_mem_foldl b now xs (saveArticle st a b now) a.link
        (by simp [Store.links, saveArticle])
    · exact ih (saveArticle st x b now) a h

/-- A request whose first attempt succeeds makes exactly one attempt. -/
theorem makeRequest_ok_first {α : Type} (att : Nat → Attempt α) (rc : Nat) (r : α)
    (h : att 0 = Attempt.ok r) : makeRequest att rc = (some r, 1) := by
  cases rc <;> simp [makeRequest, makeRequestGo, h]

/-- Attempts made by `makeRequestGo` never exceed the remaining budget. -/
theorem makeRequestGo_le {α : Type} (att : Nat → Attempt α) :
    ∀ (fuel i : Nat), (makeRequestGo att i fuel).2 ≤ fuel + 1 := by
  intro fuel
  induction fuel with
  | zero => intro i; cases h : att i <;> simp [makeRequestGo, h]
  | succ f ih =>
    intro i
    cases h : att i with
    | fail =>
      have := ih (i + 1)
      simp only [makeRequestGo, h]
      omega
    | ok r => simp [makeRequestGo, h]

/-- One failing attempt with budget left recurses to the next attempt. -/
theorem makeRequestGo_fail_step {α : Type} (att : Nat → Attempt α) (i f : Nat)
    (h : att i = Attempt.fail) :
    makeRequestGo att i (f + 1) =
      ((makeRequestGo att (i + 1) f).1, (makeRequestGo att (i + 1) f).2 + 1) := by
  simp [makeRequestGo, h]

/-- A successful attempt returns at once whatever the remaining budget. -/
theorem makeRequestGo_ok {α : Type} (att : Nat → Attempt α) (i f : Nat) (r : α)
    (h : att i = Attempt.ok r) : makeRequestGo att i f = (some r, 1) := by
  cases f <;> simp [makeRequestGo, h]

/-- With every attempt failing, `makeRequestGo` spends its whole budget. -/
theorem makeRequestGo_all_fail {α : Type} (att : Nat → Attempt α)
    (hall : ∀ i, att i = Attempt.fail) :
    ∀ (fuel i : Nat), makeRequestGo att i fuel = (none, fuel + 1) := by
  intro fuel
  induction fuel with
  | zero => intro i; simp [makeRequestGo, hall i]
  | succ f ih => intro i; simp [makeRequestGo, hall i, ih (i + 1)]

/-- Scan of a page whose first too-old item is `x`: only the in-window
part of the clean prefix is emitted, nothing past `x` is examined,
`found_in_range` records whether the prefix contributed, and
`article_date` is left at the date of `x`. -/
theorem scanItemsBS_break (name : String) (s e : Nat) (x : FeedItem)
    (hx : dateOf x.ts < s) :
    ∀ (pre post : List FeedItem), (∀ y ∈ pre, ¬ dateOf y.ts < s) →
      scanItemsBS name s e (pre ++ x :: post) =
        { emitted := (pre.filter (inWindowBS s e)).map (mkArticleInfoBS name),
          found := pre.any (inWindowBS s e),
          lastDate := dateOf x.ts } := by
  intro pre
  induction pre with
  | nil =>
    intro post _
    simp [scanItemsBS, hx]
  | cons y ys ih =>
    intro post hpre
    have hy : ¬ dateOf y.ts < s := hpre y (List.mem_cons_self y ys)
    have hys : ∀ z ∈ ys, ¬ dateOf z.ts < s := fun z hz => hpre z (List.mem_cons_of_mem y hz)
    have hne : ((ys ++ x :: post).isEmpty) = false := by cases ys <;> rfl
    by_cases hw : s ≤ dateOf y.ts ∧ dateOf y.ts ≤ e <;>
      simp [scanItemsBS, hy, hw, ih post hys, hne, inWindowBS, List.filter_cons,
        List.any_cons]

/-- WeChat scan of a page whose first too-old item is `x`: only the
in-range part of the clean prefix is emitted and `has_more` is cleared. -/
theorem scanItemsWC_break (name : String) (s e : Nat) (x : FeedItem)
    (hx : dateOf x.ts < s) :
    ∀ (pre post : List FeedItem), (∀ y ∈ pre, ¬ dateOf y.ts < s) →
      scanItemsWC name s e (pre ++ x :: post) =
        ((pre.filter (fun y => isInDateRange y.ts s e)).map (mkArticleInfoWC name),
          false) := by
  intro pre
  induction pre with
  | nil => intro post _; simp [scanItemsWC, hx]
  | cons y ys ih =>
    intro post hpre
    have hy : ¬ dateOf y.ts < s := hpre y (List.mem_cons_self y ys)
    have hys : ∀ z ∈ ys, ¬ dateOf z.ts < s := fun z hz => hpre z (List.mem_cons_of_mem y hz)
    by_cases hw : isInDateRange y.ts s e = true <;>
      simp [scanItemsWC, hy, hw, ih post hys, List.filter_cons]

/-- A too-old item anywhere on a WeChat page clears `has_more`. -/
theorem scanItemsWC_not_hasMore (name : String) (s e : Nat) :
    ∀ (items : List FeedItem) (x : FeedItem), x ∈ items → dateOf x.ts < s →
      (scanItemsWC name s e items).2 = false := by
  intro items
  induction items with
  | nil => intro x hx; cases hx
  | cons y ys ih =>
    intro x hx hd
    by_cases hy : dateOf y.ts < s
    · simp [scanItemsWC, hy]
    · rcases List.mem_cons.mp hx with h | h
      · exact absurd (h ▸ hd) hy
      · have hr := ih x h hd
        by_cases hw : isInDateRange y.ts s e = true <;>
          simp [scanItemsWC, hy, hw, hr]

/-- A listing page whose scan clears `has_more` is the last page the
WeChat loop requests (first-attempt success, clean envelope). -/
theorem wcPageLoop_last (listO : Nat → Nat → Attempt ListResp) (name : String)
    (rc s e fuel beginOff : Nat) (resp : ListResp)
    (h0 : listO beginOff 0 = Attempt.ok resp) (hret : resp.ret = 0)
    (hstop : (scanItemsWC name s e resp.items).2 = false) :
    wcPageLoop listO name rc s e (fuel + 1) beginOff =
      { arts := (scanItemsWC name s e resp.items).1,
        events := [WEvent.status name ("processing")],
        attempts := 1, sysExit := false } := by
  have hmr := makeRequest_ok_first (listO beginOff) rc resp h0
  have hne : resp.items ≠ [] := by
    intro h
    rw [h] at hstop
    simp [scanItemsWC] at hstop
  have hie : resp.items.isEmpty = false := by
    cases h2 : resp.items with
    | nil => exact absurd h2 hne
    | cons a l => rfl
  simp [wcPageLoop, hmr, hret, hie, hstop]

/-- A short listing page (fewer than 5 items, including none) is the last
page the WeChat loop requests (first-attempt success, clean envelope). -/
theorem wcPageLoop_short (listO : Nat → Nat → Attempt ListResp) (name : String)
    (rc s e fuel beginOff : Nat) (resp : ListResp)
    (h0 : listO beginOff 0 = Attempt.ok resp) (hret : resp.ret = 0)
    (hshort : resp.items.length < 5) :
    (wcPageLoop listO name rc s e (fuel + 1) beginOff).attempts = 1 ∧
      (wcPageLoop listO name rc s e (fuel + 1) beginOff).sysExit = false := by
  have hmr := makeRequest_ok_first (listO beginOff) rc resp h0
  cases h2 : resp.items with
  | nil => simp [wcPageLoop, hmr, hret, h2]
  | cons a l =>
    have hlen : (a :: l : List FeedItem).length < 5 := h2 ▸ hshort
    have hl4 : ¬ 4 ≤ l.length := by
      simp only [List.length_cons] at hlen
      omega
    simp [wcPageLoop, hmr, hret, h2, hl4]

/-- An empty `getAllUrl` result ends the batch_scraper page loop with that
single call. -/
theorem bsPages_empty_page (flip : Option Nat)
    (fetch : Nat → Nat → Option (List FeedItem)) (name : String)
    (s e fuel pageStart calls reads : Nat)
    (hc : cancelled flip reads = false) (hf : fetch calls pageStart = some []) :
    bsPages flip fetch name s e (fuel + 1) pageStart calls reads = ([], 1, reads + 1) := by
  simp [bsPages, hc, hf]

/-- A page whose scan found nothing in range and left `article_date`
before the window start ends the batch_scraper page loop with that single
call. -/
theorem bsPages_break_page (flip : Option Nat)
    (fetch : Nat → Nat → Option (List FeedItem)) (name : String)
    (s e fuel pageStart calls reads : Nat) (items : List FeedItem)
    (hc : cancelled flip reads = false) (hf : fetch calls pageStart = some items)
    (hne : items ≠ [])
    (hfound : (scanItemsBS name s e items).found = false)
    (hold : (scanItemsBS name s e items).lastDate < s) :
    bsPages flip fetch name s e (fuel + 1) pageStart calls reads =
      ((scanItemsBS name s e items).emitted, 1, reads + 1) := by
  have hie : items.isEmpty = false := by
    cases h2 : items with
    | nil => exact absurd h2 hne
    | cons a l => rfl
  simp [bsPages, hc, hf, hie, hfound, hold]

/-- A true cancellation read stops the account loop before the next
account: no event, no network call for it or anything after it. -/
theorem processSeqBS_cancelled (flip : Option Nat)
    (resolve : String → Option (List String))
    (fetch : String → Nat → Nat → Option (List FeedItem))
    (s e mp total : Nat) (name : String) (rest : List String) (i reads : Nat)
    (hc : cancelled flip reads = true) :
    processSeqBS flip resolve fetch s e mp total (name :: rest) i reads =
      { arts := [], events := [], net := 0, reads := reads + 1 } := by
  simp [processSeqBS, hc]

/-- The sequential account loop never emits `batch_completed`. -/
theorem processSeqBS_no_completedBatch (flip : Option Nat)
    (resolve : String → Option (List String))
    (fetch : String → Nat → Nat → Option (List FeedItem)) (s e mp total : Nat) :
    ∀ (accounts : List String) (i reads t : Nat),
      BEvent.completedBatch t ∉
        (processSeqBS flip resolve fetch s e mp total accounts i reads).events := by
  intro accounts
  induction accounts with
  | nil => intro i reads t; simp [processSeqBS]
  | cons name rest ih =>
    intro i reads t
    cases hc : cancelled flip reads with
    | true => simp [processSeqBS, hc]
    | false =>
      rw [processSeqBS]
      simp only [hc, Bool.false_eq_true, if_false]
      split <;> simp [ih]

/-- An inverted date window fails `_run_batch_scraper` before any network
request: one system error signal, no network call, no `batch_info` row. -/
theorem runBatchBS_bad_order (flip : Option Nat)
    (resolve : String → Option (List String))
    (fetch : String → Nat → Nat → Option (List FeedItem)) (cfg : BatchConfig)
    (now s e : Nat) (hs : cfg.startDate = some s) (he : cfg.endDate = some e)
    (hlt : e < s) :
    runBatchBS flip resolve fetch cfg now =
      { events := [BEvent.errored ("系统")], net := 0,
        db := if cfg.useDatabase then
            some { batchStatus := none, totalArticles := 0, store := emptyStore }
          else none,
        fileWritten := false, arts := [] } := by
  simp [runBatchBS, hs, he, hlt]

/-- An empty account list sails through validation: the run makes no
network call, writes no file, and finalizes the batch as completed with
zero articles. -/
theorem runBatchBS_empty_accounts (flip : Option Nat)
    (resolve : String → Option (List String))
    (fetch : String → Nat → Nat → Option (List FeedItem)) (cfg : BatchConfig)
    (now s e : Nat) (hacc : cfg.accounts = []) (hs : cfg.startDate = some s)
    (he : cfg.endDate = some e) (hle : ¬ e < s) (hc : cancelled flip 0 = false) :
    runBatchBS flip resolve fetch cfg now =
      { events := [BEvent.completedBatch 0], net := 0,
        db := if cfg.useDatabase then
            some { batchStatus := some ("completed"), totalArticles := 0,
                   store := emptyStore }
          else none,
        fileWritten := false, arts := [] } := by
  cases hdb : cfg.useDatabase <;>
    simp [runBatchBS, hs, he, hle, hacc, processSeqBS, hc, saveResultsBS, hdb]

/-- Shape of a `_run_batch_scraper` outcome whose final `is_cancelled`
read comes back true: the events are exactly the account loop's, nothing
is exported, the collected articles are retained (and persisted when the
database is enabled), and the `batch_info` row keeps its initial
`running` status. -/
theorem runBatchBS_cancelled_run (flip : Option Nat)
    (resolve : String → Option (List String))
    (fetch : String → Nat → Nat → Option (List FeedItem)) (cfg : BatchConfig)
    (now s e : Nat) (hs : cfg.startDate = some s) (he : cfg.endDate = some e)
    (hle : ¬ e < s)
    (hcan : cancelled flip (seqPart flip resolve fetch cfg s e).reads = true) :
    runBatchBS flip resolve fetch cfg now =
      { events := (seqPart flip resolve fetch cfg s e).events,
        net := (seqPart flip resolve fetch cfg s e).net,
        db := if cfg.useDatabase then
            some { batchStatus := some ("running"), totalArticles := 0,
                   store := (seqPart flip resolve fetch cfg s e).arts.foldl
                     (fun st a => saveArticle st a cfg.batchId now) emptyStore }
          else none,
        fileWritten := false,
        arts := (seqPart flip resolve fetch cfg s e).arts } := by
  rw [seqPart] at hcan
  cases hdb : cfg.useDatabase <;>
    simp [runBatchBS, hs, he, hle, hcan, hdb, seqPart]

/-- Shape of a `_run_batch_scraper` outcome whose final `is_cancelled`
read comes back false: `_save_results`, `complete_batch` and the
`batch_completed` signal all run. -/
theorem runBatchBS_completed_run (flip : Option Nat)
    (resolve : String → Option (List String))
    (fetch : String → Nat → Nat → Option (List FeedItem)) (cfg : BatchConfig)
    (now s e : Nat) (hs : cfg.startDate = some s) (he : cfg.endDate = some e)
    (hle : ¬ e < s)
    (hnc : cancelled flip (seqPart flip resolve fetch cfg s e).reads = false) :
    runBatchBS flip resolve fetch cfg now =
      { events := (seqPart flip resolve fetch cfg s e).events ++
          [BEvent.completedBatch (seqPart flip resolve fetch cfg s e).arts.length],
        net := (seqPart flip resolve fetch cfg s e).net,
        db := if cfg.useDatabase then
            some { batchStatus := some ("completed"),
                   totalArticles := (seqPart flip resolve fetch cfg s e).arts.length,
                   store := (seqPart flip resolve fetch cfg s e).arts.foldl
                     (fun st a => saveArticle st a cfg.batchId now) emptyStore }
          else none,
        fileWritten := saveResultsBS (seqPart flip resolve fetch cfg s e).arts
          cfg.outputFile,
        arts := (seqPart flip resolve fetch cfg s e).arts } := by
  rw [seqPart] at hnc
  cases hdb : cfg.useDatabase <;>
    simp [runBatchBS, hs, he, hle, hnc, hdb, seqPart]

/-- An auth-failure envelope code on a listing response makes the WeChat
page loop raise `SystemExit` after that single request. -/
theorem wcPageLoop_auth (listO : Nat → Nat → Attempt ListResp) (name : String)
    (rc s e fuel beginOff : Nat) (resp : ListResp)
    (h0 : listO beginOff 0 = Attempt.ok resp)
    (hauth : resp.ret = 200013 ∨ resp.ret = -6) :
    wcPageLoop listO name rc s e (fuel + 1) beginOff =
      { arts := [], events := [WEvent.status name ("processing")], attempts := 1,
        sysExit := true } := by
  have hmr := makeRequest_ok_first (listO beginOff) rc resp h0
  rcases hauth with h | h <;> simp [wcPageLoop, hmr, h]

/-- An auth-failure envelope code on the first listing page propagates
`SystemExit` out of `scrape_articles_by_account` after exactly two
requests (search, listing), with no `completed` status. -/
theorem wcScrape_auth (searchO : Nat → Attempt SearchResp)
    (listO : Nat → Nat → Attempt ListResp) (name : String)
    (rc s e fuel : Nat) (fs : List String) (resp : ListResp)
    (hsO : searchO 0 = Attempt.ok { ret := 0, list := fs }) (hfs : fs ≠ [])
    (h0 : listO 0 0 = Attempt.ok resp)
    (hauth : resp.ret = 200013 ∨ resp.ret = -6) :
    wcScrape searchO listO name rc s e (fuel + 1) =
      { arts := [],
        events := [WEvent.status name ("processing"), WEvent.status name ("processing")],
        attempts := 2, sysExit := true } := by
  have hmr := makeRequest_ok_first searchO rc _ hsO
  have hpl := wcPageLoop_auth listO name rc s e fuel 0 resp h0 hauth
  cases fs with
  | nil => exact absurd rfl hfs
  | cons f fs2 => simp [wcScrape, hmr, hpl]

/-- A scrape ending in `SystemExit` aborts the whole account loop: no
later account gets an event or a network attempt. -/
theorem wcRunAccounts_abort (searchO : String → Nat → Attempt SearchResp)
    (listO : String → Nat → Nat → Attempt ListResp) (rc s e fuel : Nat)
    (name : String) (rest : List String)
    (h : (wcScrape (searchO name) (listO name) name rc s e fuel).sysExit = true) :
    wcRunAccounts searchO listO rc s e fuel (name :: rest) =
      { results := [],
        events := WEvent.status name ("pending") ::
          (wcScrape (searchO name) (listO name) name rc s e fuel).events,
        attempts := (wcScrape (searchO name) (listO name) name rc s e fuel).attempts,
        aborted := true } := by
  simp [wcRunAccounts, h]

/-- A scrape that returns normally lets the account loop continue with
the remaining accounts. -/
theorem wcRunAccounts_continue (searchO : String → Nat → Attempt SearchResp)
    (listO : String → Nat → Nat → Attempt ListResp) (rc s e fuel : Nat)
    (name : String) (rest : List String)
    (h : (wcScrape (searchO name) (listO name) name rc s e fuel).sysExit = false) :
    wcRunAccounts searchO listO rc s e fuel (name :: rest) =
      { results := (wcScrape (searchO name) (listO name) name rc s e fuel).arts ++
          (wcRunAccounts searchO listO rc s e fuel rest).results,
        events := (WEvent.status name ("pending") ::
          (wcScrape (searchO name) (listO name) name rc s e fuel).events) ++
          (wcRunAccounts searchO listO rc s e fuel rest).events,
        attempts := (wcScrape (searchO name) (listO name) name rc s e fuel).attempts +
          (wcRunAccounts searchO listO rc s e fuel rest).attempts,
        aborted := (wcRunAccounts searchO listO rc s e fuel rest).aborted } := by
  simp [wcRunAccounts, h]

/-- A raised scrape in the batch_scraper sequential loop marks only that
account and continues with the rest. -/
theorem processSeqBS_raised (flip : Option Nat)
    (resolve : String → Option (List String))
    (fetch : String → Nat → Nat → Option (List FeedItem))
    (s e mp total : Nat) (name : String) (rest : List String) (i reads : Nat)
    (hc : cancelled flip reads = false)
    (hsr : (scrapeSingleBS flip (resolve name) (fetch name) name s e mp (reads + 1)).1 =
      BScrape.raised) :
    processSeqBS flip resolve fetch s e mp total (name :: rest) i reads =
      { arts := (processSeqBS flip resolve fetch s e mp total rest (i + 1)
          (scrapeSingleBS flip (resolve name) (fetch name) name s e mp
            (reads + 1)).2.2).arts,
        events := BEvent.status name ("processing") :: BEvent.progress i total ::
          BEvent.status name ("error") :: BEvent.errored name ::
          (processSeqBS flip resolve fetch s e mp total rest (i + 1)
            (scrapeSingleBS flip (resolve name) (fetch name) name s e mp
              (reads + 1)).2.2).events,
        net := (scrapeSingleBS flip (resolve name) (fetch name) name s e mp
            (reads + 1)).2.1 +
          (processSeqBS flip resolve fetch s e mp total rest (i + 1)
            (scrapeSingleBS flip (resolve name) (fetch name) name s e mp
              (reads + 1)).2.2).net,
        reads := (processSeqBS flip resolve fetch s e mp total rest (i + 1)
          (scrapeSingleBS flip (resolve name) (fetch name) name s e mp
            (reads + 1)).2.2).reads } := by
  rw [processSeqBS]
  simp only [hc, Bool.false_eq_true, if_false, hsr]

/-! ## Claim theorems -/

/-- C4: `save_article` upserts on the unique `link` column: after saving
article `a`, the rows keyed by `a.link` are exactly one row carrying the
values of this (the later) save — title, digest, content, times and
batch id all from `a` — and the total row count grows by one minus the
number of rows that previously held `a.link`, so saving into a state that
already contains the url replaces the row instead of adding a second
one. -/
theorem save_article_upsert (st : Store) (a : ArticleInput) (b : String) (now : Nat) :
    ((saveArticle st a b now).rows.filter (fun r => r.link = a.link)) =
      [{ rowId := st.nextId, account_name := a.name, title := a.title,
         link := a.link, digest := a.digest, publish_time := a.publish_time,
         publish_timestamp := a.publish_timestamp, content := a.content,
         batch_id := b, created_at := now }]
    ∧ (saveArticle st a b now).rows.length +
        (st.rows.filter (fun r => r.link = a.link)).length = st.rows.length + 1 := by
  constructor
  · simp [saveArticle, List.filter_append, filter_ne_filter_eq]
  · have h := filter_link_length st.rows a.link
    simp only [saveArticle, List.length_append, List.length_cons, List.length_nil]
    omega

/-- C8 counterexample: saving the same url twice does not leave the
original `created_at` in place.  The first save (time 100) stores a row
with `created_at = 100`; re-saving the same article at time 200 leaves a
single row whose `created_at` is 200, because `INSERT OR REPLACE` deletes
the old row and re-inserts with the column defaults re-evaluated. -/
theorem created_at_not_preserved :
    ((saveArticle emptyStore artA ("b1") 100).rows.map (fun r => r.created_at)) = [100]
    ∧ ((saveArticle (saveArticle emptyStore artA ("b1") 100) artA ("b2") 200).rows.map
        (fun r => r.created_at)) = [200] :=
  ⟨rfl, rfl⟩

/-- C8 amended: `created_at` is set at every save, not only the first —
after any `save_article` of article `a`, every stored row keyed by
`a.link` carries the `created_at` of that (latest) save, because the
REPLACE resolution deletes the conflicting row and inserts a fresh one
whose omitted `created_at` column takes its default again. -/
theorem created_at_reset_on_upsert (st : Store) (a : ArticleInput) (b : String) (now : Nat) :
    ∀ r ∈ (saveArticle st a b now).rows, r.link = a.link → r.created_at = now := by
  intro r hr hl
  simp only [saveArticle, List.mem_append, List.mem_filter, List.mem_singleton] at hr
  rcases hr with ⟨_, hne⟩ | hEq
  · simp [hl] at hne
  · subst hEq
    rfl

/-- C8 amended, witnessed at the two-save run of the counterexample:
the surviving row is `artARow2` and its `created_at` is the later save
time 200. -/
theorem created_at_reset_on_upsert_witness : artARow2.created_at = 200 :=
  created_at_reset_on_upsert (saveArticle emptyStore artA ("b1") 100) artA ("b2") 200
    artARow2 (by decide) (by decide)

/-- C9: the `publish_time` field of every article record either worker
produces equals the pure timestamp-formatting function applied to its
`publish_timestamp` field — by construction of `article_info` in
`_scrape_single_account` (via `_format_timestamp`) and in
`extract_article_info` (via `format_timestamp`). -/
theorem publish_time_regenerable (accountName officialAccount : String) (it : FeedItem) :
    (mkArticleInfoBS accountName it).publish_time =
      formatTimestamp (mkArticleInfoBS accountName it).publish_timestamp
    ∧ (mkArticleInfoWC officialAccount it).publish_time =
      wcFormatTimestamp (mkArticleInfoWC officialAccount it).publish_timestamp :=
  ⟨rfl, rfl⟩

/-- C1 counterexample: in `_scrape_single_account` (batch_scraper.py), a
page holding an in-window item followed by a too-old item does NOT end the
scan — a further page is fetched.  Page 0 of `c1fetch` contains an item
dated before the window start 10, so under the claim the loop would fetch
exactly one page; it fetches two (the break fires only when the page also
yielded nothing in range, which the next, all-old page does). -/
theorem bs_fetches_after_too_old_item :
    ((c1fetch 0 0).getD []).any (fun y => decide (dateOf y.ts < 10)) = true
    ∧ (bsPages none c1fetch ("A") 10 20 100 0 0 0).2.1 = 2 :=
  ⟨rfl, rfl⟩

/-- C1 amended: (i) in both inner item loops the first item dated before
`S` ends the page scan — nothing after it on the page is examined or
emitted, only the in-window part of the prefix is; (ii) in WeChat.py the
first too-old item also ends pagination unconditionally: the page it sits
on, wherever it sits, is the last page requested; (iii) in
batch_scraper.py pagination stops at a too-old `article_date` only when
the page yielded no in-window item (`found_in_range` false) — a page
with an in-window item before the too-old one leads to one further page
fetch (which, on a reverse-chronological feed, then stops). -/
theorem too_old_stop_amended :
    (∀ (name : String) (s e : Nat) (x : FeedItem) (pre post : List FeedItem),
      dateOf x.ts < s → (∀ y ∈ pre, ¬ dateOf y.ts < s) →
      scanItemsBS name s e (pre ++ x :: post) =
        { emitted := (pre.filter (inWindowBS s e)).map (mkArticleInfoBS name),
          found := pre.any (inWindowBS s e),
          lastDate := dateOf x.ts })
    ∧ (∀ (name : String) (s e : Nat) (x : FeedItem) (pre post : List FeedItem),
      dateOf x.ts < s → (∀ y ∈ pre, ¬ dateOf y.ts < s) →
      scanItemsWC name s e (pre ++ x :: post) =
        ((pre.filter (fun y => isInDateRange y.ts s e)).map (mkArticleInfoWC name),
          false))
    ∧ (∀ (listO : Nat → Nat → Attempt ListResp) (name : String)
        (rc s e fuel beginOff : Nat) (resp : ListResp) (x : FeedItem),
      listO beginOff 0 = Attempt.ok resp → resp.ret = 0 → x ∈ resp.items →
      dateOf x.ts < s →
      (wcPageLoop listO name rc s e (fuel + 1) beginOff).attempts = 1
      ∧ (wcPageLoop listO name rc s e (fuel + 1) beginOff).sysExit = false)
    ∧ (∀ (flip : Option Nat) (fetch : Nat → Nat → Option (List FeedItem))
        (name : String) (s e fuel pageStart calls reads : Nat)
        (items : List FeedItem),
      cancelled flip reads = false → fetch calls pageStart = some items →
      items ≠ [] → (scanItemsBS name s e items).found = false →
      (scanItemsBS name s e items).lastDate < s →
      bsPages flip fetch name s e (fuel + 1) pageStart calls reads =
        ((scanItemsBS name s e items).emitted, 1, reads + 1)) := by
  refine ⟨?_, ?_, ?_, ?_⟩
  · intro name s e x pre post hx hpre
    exact scanItemsBS_break name s e x hx pre post hpre
  · intro name s e x pre post hx hpre
    exact scanItemsWC_break name s e x hx pre post hpre
  · intro listO name rc s e fuel beginOff resp x h0 hret hx hd
    have hstop := scanItemsWC_not_hasMore name s e resp.items x hx hd
    rw [wcPageLoop_last listO name rc s e fuel beginOff resp h0 hret hstop]
    exact ⟨rfl, rfl⟩
  · intro flip fetch name s e fuel pageStart calls reads items hc hf hne hfound hold
    exact bsPages_break_page flip fetch name s e fuel pageStart calls reads items
      hc hf hne hfound hold

/-- C1 amended, witnessed: (i) the batch scan of a too-new prefix, a
too-old item and an in-window tail emits nothing; (ii) likewise for the
WeChat scan; (iii) the WeChat loop makes exactly one request on a page
whose second item is too old; (iv) the batch loop stops after an all-old
page. -/
theorem too_old_stop_amended_witness :
    scanItemsBS ("A") 10 20 ([itemDay25] ++ itemDay5 :: [itemDay15]) =
      { emitted := ([itemDay25].filter (inWindowBS 10 20)).map (mkArticleInfoBS ("A")),
        found := [itemDay25].any (inWindowBS 10 20),
        lastDate := dateOf itemDay5.ts }
    ∧ scanItemsWC ("A") 10 20 ([itemDay25] ++ itemDay5 :: [itemDay15]) =
        (([itemDay25].filter (fun y => isInDateRange y.ts 10 20)).map
          (mkArticleInfoWC ("A")), false)
    ∧ ((wcPageLoop c1wcList ("A") 3 10 20 4 0).attempts = 1
       ∧ (wcPageLoop c1wcList ("A") 3 10 20 4 0).sysExit = false)
    ∧ bsPages none cOldFetch ("A") 10 20 4 0 0 0 =
        ((scanItemsBS ("A") 10 20 [itemDay5]).emitted, 1, 0 + 1) :=
  ⟨too_old_stop_amended.1 ("A") 10 20 itemDay5 [itemDay25] [itemDay15] (by decide)
      (by decide),
   too_old_stop_amended.2.1 ("A") 10 20 itemDay5 [itemDay25] [itemDay15] (by decide)
      (by decide),
   too_old_stop_amended.2.2.1 c1wcList ("A") 3 10 20 3 0
      { ret := 0, items := [itemDay15, itemDay5] } itemDay5 rfl rfl (by decide)
      (by decide),
   too_old_stop_amended.2.2.2 none cOldFetch ("A") 10 20 3 0 0 0 [itemDay5] rfl rfl
      (by decide) (by decide) (by decide)⟩

/-- C2 counterexample: in `_scrape_single_account` (batch_scraper.py), a
page with fewer items than the page size does not terminate pagination —
only an empty page does.  Page 0 of `c2fetch` has three items, all inside
the window (no date boundary crossed), yet a second fetch is issued. -/
theorem bs_fetches_after_short_page :
    ((c2fetch 0 0).getD []).length = 3
    ∧ ((c2fetch 0 0).getD []).all (fun y => inWindowBS 10 20 y) = true
    ∧ (bsPages none c2fetch ("A") 10 20 100 0 0 0).2.1 = 2 :=
  ⟨rfl, rfl, rfl⟩

/-- C2 amended: in WeChat.py any page with fewer than 5 items (zero
included) is the last page requested for the account; in batch_scraper.py
only a zero-item page ends the loop with that single call — a nonempty
short page with no date boundary crossed leads to a further fetch. -/
theorem short_page_stop_amended :
    (∀ (listO : Nat → Nat → Attempt ListResp) (name : String)
        (rc s e fuel beginOff : Nat) (resp : ListResp),
      listO beginOff 0 = Attempt.ok resp → resp.ret = 0 → resp.items.length < 5 →
      (wcPageLoop listO name rc s e (fuel + 1) beginOff).attempts = 1
      ∧ (wcPageLoop listO name rc s e (fuel + 1) beginOff).sysExit = false)
    ∧ (∀ (flip : Option Nat) (fetch : Nat → Nat → Option (List FeedItem))
        (name : String) (s e fuel pageStart calls reads : Nat),
      cancelled flip reads = false → fetch calls pageStart = some [] →
      bsPages flip fetch name s e (fuel + 1) pageStart calls reads =
        ([], 1, reads + 1)) := by
  refine ⟨?_, ?_⟩
  · intro listO name rc s e fuel beginOff resp h0 hret hshort
    exact wcPageLoop_short listO name rc s e fuel beginOff resp h0 hret hshort
  · intro flip fetch name s e fuel pageStart calls reads hc hf
    exact bsPages_empty_page flip fetch name s e fuel pageStart calls reads hc hf

/-- C2 amended, witnessed: the WeChat loop makes exactly one request on a
one-item page, and the batch loop stops on an empty page. -/
theorem short_page_stop_amended_witness :
    ((wcPageLoop c2wcList ("A") 3 10 20 4 0).attempts = 1
     ∧ (wcPageLoop c2wcList ("A") 3 10 20 4 0).sysExit = false)
    ∧ bsPages none cEmptyPage ("A") 10 20 4 0 0 0 = ([], 1, 0 + 1) :=
  ⟨short_page_stop_amended.1 c2wcList ("A") 3 10 20 3 0
      { ret := 0, items := [itemDay15] } rfl rfl (by decide),
   short_page_stop_amended.2 none cEmptyPage ("A") 10 20 3 0 0 0 rfl rfl⟩

/-- C3 counterexample: a configuration with a valid window and an empty
account list is not rejected — `_run_batch_scraper` emits no
`error_occurred` signal at all; it completes the batch, emitting
`batch_completed` with count 0 and marking the `batch_info` row
completed.  (It does make zero network calls — only the failure report
demanded by the claim is missing.) -/
theorem empty_accounts_not_rejected :
    (runBatchBS none cResolve cEmptyFetch c3cfg 0).events = [BEvent.completedBatch 0]
    ∧ (runBatchBS none cResolve cEmptyFetch c3cfg 0).net = 0
    ∧ (runBatchBS none cResolve cEmptyFetch c3cfg 0).db =
        some { batchStatus := some ("completed"), totalArticles := 0,
               store := emptyStore } :=
  ⟨rfl, rfl, rfl⟩

/-- C3 amended: a start date later than the end date fails `run()` before
any network request — a single system error signal, zero network calls, no
batch row created; an empty account list, however, is not validated: the
run performs zero network calls but reports no configuration error and
finalizes the batch as completed with zero articles. -/
theorem config_validation_amended :
    (∀ (flip : Option Nat) (resolve : String → Option (List String))
        (fetch : String → Nat → Nat → Option (List FeedItem))
        (cfg : BatchConfig) (now s e : Nat),
      cfg.startDate = some s → cfg.endDate = some e → e < s →
      runBatchBS flip resolve fetch cfg now =
        { events := [BEvent.errored ("系统")], net := 0,
          db := if cfg.useDatabase then
              some { batchStatus := none, totalArticles := 0, store := emptyStore }
            else none,
          fileWritten := false, arts := [] })
    ∧ (∀ (flip : Option Nat) (resolve : String → Option (List String))
        (fetch : String → Nat → Nat → Option (List FeedItem))
        (cfg : BatchConfig) (now s e : Nat),
      cfg.accounts = [] → cfg.startDate = some s → cfg.endDate = some e →
      ¬ e < s → cancelled flip 0 = false →
      runBatchBS flip resolve fetch cfg now =
        { events := [BEvent.completedBatch 0], net := 0,
          db := if cfg.useDatabase then
              some { batchStatus := some ("completed"), totalArticles := 0,
                     store := emptyStore }
            else none,
          fileWritten := false, arts := [] }) := by
  refine ⟨?_, ?_⟩
  · intro flip resolve fetch cfg now s e hs he hlt
    exact runBatchBS_bad_order flip resolve fetch cfg now s e hs he hlt
  · intro flip resolve fetch cfg now s e hacc hs he hle hc
    exact runBatchBS_empty_accounts flip resolve fetch cfg now s e hacc hs he hle hc

/-- C3 amended, witnessed: the inverted-window configuration yields the
single error signal with no network call, and the empty-account
configuration completes with zero articles and no network call. -/
theorem config_validation_amended_witness :
    runBatchBS none cResolve cEmptyFetch cBadCfg 0 =
      { events := [BEvent.errored ("系统")], net := 0,
        db := if cBadCfg.useDatabase then
            some { batchStatus := none, totalArticles := 0, store := emptyStore }
          else none,
        fileWritten := false, arts := [] }
    ∧ runBatchBS none cResolve cEmptyFetch c3cfg 0 =
      { events := [BEvent.completedBatch 0], net := 0,
        db := if c3cfg.useDatabase then
            some { batchStatus := some ("completed"), totalArticles := 0,
                   store := emptyStore }
          else none,
        fileWritten := false, arts := [] } :=
  ⟨config_validation_amended.1 none cResolve cEmptyFetch cBadCfg 0 20 10 rfl rfl
      (by decide),
   config_validation_amended.2 none cResolve cEmptyFetch c3cfg 0 10 20 rfl rfl rfl
      (by decide) rfl⟩

/-- C10: a batch that finishes uncancelled with an empty aggregated
article list writes no export file (`_save_results` returns before
touching the output path) yet is still finalized: `complete_batch` marks
the batch row completed with total 0 and `batch_completed` fires with
count 0. -/
theorem empty_batch_still_finalized (resolve : String → Option (List String))
    (fetch : String → Nat → Nat → Option (List FeedItem)) (cfg : BatchConfig)
    (now s e : Nat) (hs : cfg.startDate = some s) (he : cfg.endDate = some e)
    (hle : ¬ e < s)
    (hempty : (runBatchBS none resolve fetch cfg now).arts = []) :
    (runBatchBS none resolve fetch cfg now).fileWritten = false
    ∧ BEvent.completedBatch 0 ∈ (runBatchBS none resolve fetch cfg now).events
    ∧ (runBatchBS none resolve fetch cfg now).db =
        (if cfg.useDatabase then
           some { batchStatus := some ("completed"), totalArticles := 0,
                  store := emptyStore }
         else none) := by
  have hnc : cancelled none (seqPart none resolve fetch cfg s e).reads = false := rfl
  have heq := runBatchBS_completed_run none resolve fetch cfg now s e hs he hle hnc
  have harts : (seqPart none resolve fetch cfg s e).arts = [] := by
    rw [heq] at hempty
    exact hempty
  rw [heq]
  refine ⟨?_, ?_, ?_⟩
  · simp [harts, saveResultsBS]
  · simp [harts]
  · cases hdb : cfg.useDatabase <;> simp [harts, hdb]

/-- C10, witnessed at a run whose single account yields an empty first
page: no file written, `batch_completed 0` emitted, batch row completed
with total 0. -/
theorem empty_batch_still_finalized_witness :
    (runBatchBS none cResolve cEmptyFetch c10cfg 0).fileWritten = false
    ∧ BEvent.completedBatch 0 ∈ (runBatchBS none cResolve cEmptyFetch c10cfg 0).events
    ∧ (runBatchBS none cResolve cEmptyFetch c10cfg 0).db =
        (if c10cfg.useDatabase then
           some { batchStatus := some ("completed"), totalArticles := 0,
                  store := emptyStore }
         else none) :=
  empty_batch_still_finalized cResolve cEmptyFetch c10cfg 0 10 20 rfl rfl
    (by decide) rfl

/-- C7 counterexample: a run cancelled mid-batch never gets a `cancelled`
status — `complete_batch` is the only status writer in the module, and the
cancelled path skips it, so the `batch_info` row keeps the `running`
status it was created with.  Here the flag flips after read 3: account A
completes with one article (kept in the result and the store) while B
never starts (no signal mentions it), yet the final row still says
`running`, not the `cancelled` the claim requires. -/
theorem cancelled_batch_left_running :
    (runBatchBS (some 3) cResolve c7fetch c7cfg 42).db.map (fun d => d.batchStatus) =
      some (some ("running"))
    ∧ (runBatchBS (some 3) cResolve c7fetch c7cfg 42).arts =
        [mkArticleInfoBS ("A") itemDay15]
    ∧ ((runBatchBS (some 3) cResolve c7fetch c7cfg 42).events.filter
        (fun ev => match ev with
          | BEvent.status n _ => n == "B"
          | _ => false)) = []
    ∧ (some (some ("cancelled")) : Option (Option String)) ≠
        (runBatchBS (some 3) cResolve c7fetch c7cfg 42).db.map
          (fun d => d.batchStatus) :=
  ⟨rfl, rfl, rfl, by decide⟩

/-- C7 amended (sequential path): once a cancellation read returns true,
no further account starts — the loop ends with no event and no network
call for any remaining account; the batch is never finalized `completed`
(no `batch_completed` signal, status untouched) and the collected
articles are kept, each persisted under its link when the database is
enabled.  However the run does not write a `cancelled` status: the
`batch_info` row is left with status `running`.  (In threaded mode,
already-submitted accounts may additionally still begin their search call
after cancellation.) -/
theorem cancellation_semantics_amended :
    (∀ (flip : Option Nat) (resolve : String → Option (List String))
        (fetch : String → Nat → Nat → Option (List FeedItem))
        (s e mp total : Nat) (name : String) (rest : List String) (i reads : Nat),
      cancelled flip reads = true →
      processSeqBS flip resolve fetch s e mp total (name :: rest) i reads =
        { arts := [], events := [], net := 0, reads := reads + 1 })
    ∧ (∀ (flip : Option Nat) (resolve : String → Option (List String))
        (fetch : String → Nat → Nat → Option (List FeedItem))
        (cfg : BatchConfig) (now s e : Nat),
      cfg.startDate = some s → cfg.endDate = some e → ¬ e < s →
      cancelled flip (seqPart flip resolve fetch cfg s e).reads = true →
      (∀ t, BEvent.completedBatch t ∉ (runBatchBS flip resolve fetch cfg now).events)
      ∧ (runBatchBS flip resolve fetch cfg now).db =
          (if cfg.useDatabase then
             some { batchStatus := some ("running"), totalArticles := 0,
                    store := (seqPart flip resolve fetch cfg s e).arts.foldl
                      (fun st a => saveArticle st a cfg.batchId now) emptyStore }
           else none)
      ∧ (runBatchBS flip resolve fetch cfg now).arts =
          (seqPart flip resolve fetch cfg s e).arts
      ∧ (∀ d, (runBatchBS flip resolve fetch cfg now).db = some d →
          ∀ a ∈ (runBatchBS flip resolve fetch cfg now).arts,
            a.link ∈ d.store.links)) := by
  refine ⟨?_, ?_⟩
  · intro flip resolve fetch s e mp total name rest i reads hc
    exact processSeqBS_cancelled flip resolve fetch s e mp total name rest i reads hc
  · intro flip resolve fetch cfg now s e hs he hle hcan
    have heq := runBatchBS_cancelled_run flip resolve fetch cfg now s e hs he hle hcan
    rw [heq]
    refine ⟨?_, rfl, rfl, ?_⟩
    · intro t
      simpa [seqPart] using
        processSeqBS_no_completedBatch flip resolve fetch s e cfg.maxPages
          cfg.accounts.length cfg.accounts 0 0 t
    · intro d hd a ha
      cases hdb : cfg.useDatabase with
      | false => rw [hdb] at hd; simp at hd
      | true =>
        rw [hdb] at hd
        simp only [if_true] at hd
        cases Option.some.inj hd
        exact saved_link_mem_foldl cfg.batchId now
          (seqPart flip resolve fetch cfg s e).arts emptyStore a ha

/-- C7 amended, witnessed at concrete runs: a flag already flipped stops
the loop immediately; the cancelled run of the counterexample emits no
`batch_completed`, keeps the `running` status with the collected article
stored, and returns the account loop's articles. -/
theorem cancellation_semantics_amended_witness :
    processSeqBS (some 0) cResolve c7fetch 10 20 5 2 ["A", "B"] 0 0 =
      { arts := [], events := [], net := 0, reads := 0 + 1 }
    ∧ BEvent.completedBatch 0 ∉ (runBatchBS (some 3) cResolve c7fetch c7cfg 42).events
    ∧ (runBatchBS (some 3) cResolve c7fetch c7cfg 42).db =
        (if c7cfg.useDatabase then
           some { batchStatus := some ("running"), totalArticles := 0,
                  store := (seqPart (some 3) cResolve c7fetch c7cfg 10 20).arts.foldl
                    (fun st a => saveArticle st a c7cfg.batchId 42) emptyStore }
         else none)
    ∧ (runBatchBS (some 3) cResolve c7fetch c7cfg 42).arts =
        (seqPart (some 3) cResolve c7fetch c7cfg 10 20).arts :=
  ⟨cancellation_semantics_amended.1 (some 0) cResolve c7fetch 10 20 5 2 ("A") ["B"] 0 0
      rfl,
   (cancellation_semantics_amended.2 (some 3) cResolve c7fetch c7cfg 42 10 20 rfl rfl
      (by decide) (by decide)).1 0,
   (cancellation_semantics_amended.2 (some 3) cResolve c7fetch c7cfg 42 10 20 rfl rfl
      (by decide) (by decide)).2.1,
   (cancellation_semantics_amended.2 (some 3) cResolve c7fetch c7cfg 42 10 20 rfl rfl
      (by decide) (by decide)).2.2.1⟩

/-- C6 counterexample: an auth-failure code on account A's listing aborts
the WeChat run (so B makes zero network calls), but the remaining account
B is NOT marked error — the run's complete event list mentions only A, so
no status of any kind, let alone an error with the same cause, reaches
B. -/
theorem auth_failure_remaining_unmarked :
    (wcRunAccounts c6search c6list 3 10 20 4 ["A", "B"]).aborted = true
    ∧ (wcRunAccounts c6search c6list 3 10 20 4 ["A", "B"]).events =
        [WEvent.status ("A") "pending", WEvent.status ("A") "processing",
         WEvent.status ("A") "processing"]
    ∧ (wcRunAccounts c6search c6list 3 10 20 4 ["A", "B"]).attempts = 2 :=
  ⟨rfl, rfl, rfl⟩

/-- C6 amended: in WeChat.py an auth-failure envelope code (200013 or -6)
on a page-listing response raises `SystemExit`, aborting the whole batch:
no later account is touched — zero additional network calls and zero
events for every remaining account — but those accounts are not marked
error; the abort is silent for them.  In batch_scraper.py there is no
auth-code handling at all: a failed account (any raised scrape) is marked
error and the loop continues, so the remaining accounts still make their
network calls. -/
theorem auth_failure_abort_amended :
    (∀ (searchO : Nat → Attempt SearchResp) (listO : Nat → Nat → Attempt ListResp)
        (name : String) (rc s e fuel : Nat) (fs : List String) (resp : ListResp),
      searchO 0 = Attempt.ok { ret := 0, list := fs } → fs ≠ [] →
      listO 0 0 = Attempt.ok resp → resp.ret = 200013 ∨ resp.ret = -6 →
      wcScrape searchO listO name rc s e (fuel + 1) =
        { arts := [],
          events := [WEvent.status name ("processing"), WEvent.status name ("processing")],
          attempts := 2, sysExit := true })
    ∧ (∀ (searchO : String → Nat → Attempt SearchResp)
        (listO : String → Nat → Nat → Attempt ListResp) (rc s e fuel : Nat)
        (name : String) (rest : List String),
      (wcScrape (searchO name) (listO name) name rc s e fuel).sysExit = true →
      wcRunAccounts searchO listO rc s e fuel (name :: rest) =
        { results := [],
          events := WEvent.status name ("pending") ::
            (wcScrape (searchO name) (listO name) name rc s e fuel).events,
          attempts := (wcScrape (searchO name) (listO name) name rc s e fuel).attempts,
          aborted := true })
    ∧ (∀ (flip : Option Nat) (resolve : String → Option (List String))
        (fetch : String → Nat → Nat → Option (List FeedItem))
        (s e mp total : Nat) (name : String) (rest : List String) (i reads : Nat),
      cancelled flip reads = false →
      (scrapeSingleBS flip (resolve name) (fetch name) name s e mp (reads + 1)).1 =
        BScrape.raised →
      (processSeqBS flip resolve fetch s e mp total (name :: rest) i reads).events =
        BEvent.status name ("processing") :: BEvent.progress i total ::
          BEvent.status name ("error") :: BEvent.errored name ::
          (processSeqBS flip resolve fetch s e mp total rest (i + 1)
            (scrapeSingleBS flip (resolve name) (fetch name) name s e mp
              (reads + 1)).2.2).events
      ∧ (processSeqBS flip resolve fetch s e mp total (name :: rest) i reads).net =
          (scrapeSingleBS flip (resolve name) (fetch name) name s e mp
            (reads + 1)).2.1 +
          (processSeqBS flip resolve fetch s e mp total rest (i + 1)
            (scrapeSingleBS flip (resolve name) (fetch name) name s e mp
              (reads + 1)).2.2).net) := by
  refine ⟨?_, ?_, ?_⟩
  · intro searchO listO name rc s e fuel fs resp hsO hfs h0 hauth
    exact wcScrape_auth searchO listO name rc s e fuel fs resp hsO hfs h0 hauth
  · intro searchO listO rc s e fuel name rest h
    exact wcRunAccounts_abort searchO listO rc s e fuel name rest h
  · intro flip resolve fetch s e mp total name rest i reads hc hsr
    rw [processSeqBS_raised flip resolve fetch s e mp total name rest i reads hc hsr]
    exact ⟨rfl, rfl⟩

/-- C6 amended, witnessed at the counterexample's oracles: the auth-coded
listing exits account A's scrape with two requests, the run aborts with
no event for B, and in batch_scraper a raised first account still lets B
run (its events and network count follow it). -/
theorem auth_failure_abort_amended_witness :
    wcScrape (c6search ("A")) (c6list ("A")) "A" 3 10 20 4 =
      { arts := [],
        events := [WEvent.status ("A") "processing", WEvent.status ("A") "processing"],
        attempts := 2, sysExit := true }
    ∧ wcRunAccounts c6search c6list 3 10 20 4 ["A", "B"] =
        { results := [],
          events := WEvent.status ("A") "pending" ::
            (wcScrape (c6search ("A")) (c6list ("A")) "A" 3 10 20 4).events,
          attempts := (wcScrape (c6search ("A")) (c6list ("A")) "A" 3 10 20 4).attempts,
          aborted := true }
    ∧ ((processSeqBS none cBadResolve cEmptyFetch 10 20 5 2 ["A", "B"] 0 0).events =
        BEvent.status ("A") "processing" :: BEvent.progress 0 2 ::
          BEvent.status ("A") "error" :: BEvent.errored ("A") ::
          (processSeqBS none cBadResolve cEmptyFetch 10 20 5 2 ["B"] (0 + 1)
            (scrapeSingleBS none (cBadResolve ("A")) (cEmptyFetch ("A")) "A" 10 20 5
              (0 + 1)).2.2).events
       ∧ (processSeqBS none cBadResolve cEmptyFetch 10 20 5 2 ["A", "B"] 0 0).net =
          (scrapeSingleBS none (cBadResolve ("A")) (cEmptyFetch ("A")) "A" 10 20 5
            (0 + 1)).2.1 +
          (processSeqBS none cBadResolve cEmptyFetch 10 20 5 2 ["B"] (0 + 1)
            (scrapeSingleBS none (cBadResolve ("A")) (cEmptyFetch ("A")) "A" 10 20 5
              (0 + 1)).2.2).net) :=
  ⟨auth_failure_abort_amended.1 (c6search ("A")) (c6list ("A")) "A" 3 10 20 3 ["fakeid"]
      { ret := 200013, items := [] } rfl (by decide) rfl (Or.inl rfl),
   auth_failure_abort_amended.2.1 c6search c6list 3 10 20 4 ("A") ["B"] (by decide),
   auth_failure_abort_amended.2.2 none cBadResolve cEmptyFetch 10 20 5 2 ("A") ["B"] 0 0
      rfl rfl⟩

/-- C5 counterexample: in `_scrape_single_account` (batch_scraper.py) a
failing page-listing fetch is not governed by the configured retry count:
here the listing call at offset 0 raises five consecutive times — more
than `DEFAULT_RETRY_COUNT` (3) retries, each caught failure consuming one
`max_pages` iteration with no retry delay — after which the loop simply
tries again, succeeds, and the account finishes with its article rather
than failing terminally. -/
theorem bs_listing_retry_not_bounded :
    (scrapeSingleBS none (some ["fakeid"]) c5fetch ("A") 10 20 10 0).1 =
      BScrape.done [mkArticleInfoBS ("A") itemDay15]
    ∧ (scrapeSingleBS none (some ["fakeid"]) c5fetch ("A") 10 20 10 0).2.1 = 8
    ∧ DEFAULT_RETRY_COUNT + 2 <
        (scrapeSingleBS none (some ["fakeid"]) c5fetch ("A") 10 20 10 0).2.1 :=
  ⟨rfl, rfl, by decide⟩

/-- C5 amended: WeChat.py's `_make_request` retries exactly as claimed —
failing twice then succeeding with `RETRY_COUNT = 3` yields the response
after exactly 3 attempts, at most `retryCount + 1` attempts are ever
made, exhaustion returns `None` after `retryCount + 1` attempts, an
exhausted listing fails only that account (`error` status, no
`SystemExit`), and the run loop continues with the remaining accounts.
batch_scraper.py's listing path, by contrast, has no such retry bound
(see the counterexample). -/
theorem retry_semantics_amended :
    (∀ (α : Type) (att : Nat → Attempt α) (r : α),
      att 0 = Attempt.fail → att 1 = Attempt.fail → att 2 = Attempt.ok r →
      makeRequest att RETRY_COUNT = (some r, 3))
    ∧ (∀ (α : Type) (att : Nat → Attempt α) (rc : Nat),
      (makeRequest att rc).2 ≤ rc + 1)
    ∧ (∀ (α : Type) (att : Nat → Attempt α) (rc : Nat),
      (∀ i, att i = Attempt.fail) → makeRequest att rc = (none, rc + 1))
    ∧ (∀ (searchO : Nat → Attempt SearchResp) (listO : Nat → Nat → Attempt ListResp)
        (name : String) (rc s e fuel : Nat) (fs : List String),
      searchO 0 = Attempt.ok { ret := 0, list := fs } → fs ≠ [] →
      (∀ a, listO 0 a = Attempt.fail) →
      wcScrape searchO listO name rc s e (fuel + 1) =
        { arts := [],
          events := [WEvent.status name ("processing"), WEvent.status name ("processing"),
            WEvent.status name ("error"), WEvent.status name ("completed")],
          attempts := 1 + (rc + 1), sysExit := false })
    ∧ (∀ (searchO : String → Nat → Attempt SearchResp)
        (listO : String → Nat → Nat → Attempt ListResp) (rc s e fuel : Nat)
        (name : String) (rest : List String),
      (wcScrape (searchO name) (listO name) name rc s e fuel).sysExit = false →
      wcRunAccounts searchO listO rc s e fuel (name :: rest) =
        { results := (wcScrape (searchO name) (listO name) name rc s e fuel).arts ++
            (wcRunAccounts searchO listO rc s e fuel rest).results,
          events := (WEvent.status name ("pending") ::
            (wcScrape (searchO name) (listO name) name rc s e fuel).events) ++
            (wcRunAccounts searchO listO rc s e fuel rest).events,
          attempts := (wcScrape (searchO name) (listO name) name rc s e fuel).attempts +
            (wcRunAccounts searchO listO rc s e fuel rest).attempts,
          aborted := (wcRunAccounts searchO listO rc s e fuel rest).aborted }) := by
  refine ⟨?_, ?_, ?_, ?_, ?_⟩
  · intro α att r h0 h1 h2
    simp [makeRequest, RETRY_COUNT, makeRequestGo_fail_step att 0 2 h0,
      makeRequestGo_fail_step att 1 1 h1, makeRequestGo_ok att 2 1 r h2]
  · intro α att rc
    exact makeRequestGo_le att rc 0
  · intro α att rc hall
    exact makeRequestGo_all_fail att hall rc 0
  · intro searchO listO name rc s e fuel fs hsO hfs hfail
    have hmr := makeRequest_ok_first searchO rc _ hsO
    have hml : makeRequest (listO 0) rc = (none, rc + 1) :=
      makeRequestGo_all_fail (listO 0) hfail rc 0
    cases fs with
    | nil => exact absurd rfl hfs
    | cons f fs2 => simp [wcScrape, wcPageLoop, hmr, hml]
  · intro searchO listO rc s e fuel name rest h
    exact wcRunAccounts_continue searchO listO rc s e fuel name rest h

/-- C5 amended, witnessed: the fail-fail-ok oracle succeeds on attempt 3;
the all-fail listing oracle exhausts 4 attempts and returns none; an
account with an exhausted listing ends in an error status without
aborting; and the run then still reaches the next account. -/
theorem retry_semantics_amended_witness :
    makeRequest c5att RETRY_COUNT = (some 7, 3)
    ∧ makeRequest (cFailList 0) 3 = (none, 3 + 1)
    ∧ wcScrape (c6search ("A")) cFailList ("A") 3 10 20 4 =
        { arts := [],
          events := [WEvent.status ("A") "processing", WEvent.status ("A") "processing",
            WEvent.status ("A") "error", WEvent.status ("A") "completed"],
          attempts := 1 + (3 + 1), sysExit := false }
    ∧ wcRunAccounts c6search (fun _ => cFailList) 3 10 20 4 ["A", "B"] =
        { results := (wcScrape (c6search ("A")) cFailList ("A") 3 10 20 4).arts ++
            (wcRunAccounts c6search (fun _ => cFailList) 3 10 20 4 ["B"]).results,
          events := (WEvent.status ("A") "pending" ::
            (wcScrape (c6search ("A")) cFailList ("A") 3 10 20 4).events) ++
            (wcRunAccounts c6search (fun _ => cFailList) 3 10 20 4 ["B"]).events,
          attempts := (wcScrape (c6search ("A")) cFailList ("A") 3 10 20 4).attempts +
            (wcRunAccounts c6search (fun _ => cFailList) 3 10 20 4 ["B"]).attempts,
          aborted := (wcRunAccounts c6search (fun _ => cFailList) 3 10 20 4 ["B"]).aborted } :=
  ⟨retry_semantics_amended.1 Nat c5att 7 rfl rfl rfl,
   retry_semantics_amended.2.2.1 ListResp (cFailList 0) 3 (fun _ => rfl),
   retry_semantics_amended.2.2.2.1 (c6search ("A")) cFailList ("A") 3 10 20 3 ["fakeid"]
      rfl (by decide) (fun _ => rfl),
   retry_semantics_amended.2.2.2.2 c6search (fun _ => cFailList) 3 10 20 4 ("A") ["B"]
      (by decide)⟩

end WeSpider
